import Mathlib

/-!
Shallow embedding of the hotel maintenance FIR tracker (React + Firebase app).
The live code path is the integrated single-file App: its Firestore API layer
(subscribeToIssues, createNewIssue, updateIssueField), the display-id
allocator inside the subscription callback, the submission handler
(handleSubmit) and the client-side search filter (filteredFirs).
The external backend (Firestore, Storage) is modelled by explicit data:
a snapshot is a list of documents, an upload is an effect carrying the
storage path, and the download-URL assignment is an arbitrary function
from paths to URLs.  Machine timestamps (Date.now(), Timestamp.now())
are explicit parameters.
-/

namespace HamsunFir

/-- Whitespace characters trimmed by JavaScript parseInt. -/
def isJsSpace (c : Char) : Bool :=
  c = ' ' || c = '\t' || c = '\n' || c = '\r'

/-- Numeric value of a decimal digit character. -/
def digitVal (c : Char) : Nat := c.toNat - '0'.toNat

/-- Decimal digits to a natural number, most significant first. -/
def digitsToNat (ds : List Char) : Nat :=
  ds.foldl (fun n c => 10 * n + digitVal c) 0

/-- Model of JavaScript parseInt(s, 10): trim leading whitespace, read an
optional sign, then the longest prefix of decimal digits; none models NaN
(no digits at all). -/
def parseIntJS (s : String) : Option Int :=
  let cs := s.data.dropWhile isJsSpace
  let signed : Int × List Char :=
    match cs with
    | '-' :: r => (-1, r)
    | '+' :: r => (1, r)
    | r => (1, r)
  let ds := signed.2.takeWhile Char.isDigit
  if ds.isEmpty then none else some (signed.1 * (digitsToNat ds : Int))

/-- Model of JavaScript s.slice(n) for nonnegative n. -/
def jsSlice (s : String) (n : Nat) : String := String.mk (s.data.drop n)

/-- Model of the JavaScript expression (x || d) where x is an optional
string: undefined and the empty string are falsy and give the default. -/
def jsOrElse (x : Option String) (d : String) : String :=
  match x with
  | none => d
  | some s => if s = "" then d else s

/-- Issue document as delivered by a Firestore snapshot.  Fields that the
client dereferences with optional chaining (displayId, roomNumber,
issueTitle, description, createdAt) are Option; createdAt is the seconds
field of the Firestore Timestamp. -/
structure Issue where
  id : String
  displayId : Option String
  roomNumber : Option String
  issueTitle : Option String
  description : Option String
  priority : String
  status : String
  department : String
  imageUrl : Option String
  createdAt : Option Nat
deriving DecidableEq, Repr

/-- Numeric suffix of a displayId as the subscription callback computes it:
parseInt(fir.displayId?.slice(4) || '0', 10). -/
def suffixNum (displayId : Option String) : Option Int :=
  parseIntJS (jsOrElse (displayId.map (fun s => jsSlice s 4)) "0")

/-- One step of the reduce in the subscription callback:
num > max ? num : max, where a NaN comparison is false so max is kept. -/
def reduceStep (max : Int) (fir : Issue) : Int :=
  match suffixNum fir.displayId with
  | none => max
  | some num => if max < num then num else max

/-- data.reduce((max, fir) => ..., 0) from the subscription callback. -/
def highestId (data : List Issue) : Int := data.foldl reduceStep 0

/-- Model of JavaScript s.padStart(n, c). -/
def padStart (s : String) (n : Nat) (c : Char) : String :=
  String.mk (List.replicate (n - s.data.length) c) ++ s

/-- The proposed next display id: the literal FIR- followed by
String(highestId + 1).padStart(4, "0"). -/
def nextDisplayId (data : List Issue) : String :=
  "FIR-" ++ padStart (toString (highestId data + 1)) 4 '0'

/-- Initial value of the nextDisplayId state before any snapshot arrives. -/
def initialNextDisplayId : String := "FIR-0001"

/-- Equality filters applied by the Firestore query: a where clause on
priority is added when priorityFilter is not "All", likewise for
department. -/
def matchesFilters (priorityFilter departmentFilter : String) (d : Issue) : Bool :=
  (priorityFilter == "All" || d.priority == priorityFilter) &&
  (departmentFilter == "All" || d.department == departmentFilter)

/-- The set of documents the filtered query delivers in a snapshot. -/
def applyFilters (docs : List Issue) (priorityFilter departmentFilter : String) : List Issue :=
  docs.filter (matchesFilters priorityFilter departmentFilter)

/-- b.createdAt?.seconds || 0, the sort key of the in-memory sort. -/
def createdAtSeconds (i : Issue) : Nat :=
  match i.createdAt with
  | none => 0
  | some s => s

/-- The comparator (a, b) => (b.createdAt?.seconds || 0) - (a.createdAt?.seconds || 0)
orders a before b exactly when this relation holds. -/
def newestFirst (a b : Issue) : Bool :=
  createdAtSeconds b ≤ createdAtSeconds a

/-- In-memory sort of the snapshot, newest first (issues.sort(comparator);
Array.prototype.sort is stable, modelled by a stable merge sort). -/
def sortIssues (issues : List Issue) : List Issue :=
  issues.mergeSort newestFirst

/-- subscribeToIssues: given the authenticated user id, the two filters and
the server snapshot of documents, produce the list handed to the callback.
none models the guard (!db || !userId) returning the no-op unsubscribe, in
which case no list is ever delivered. -/
def subscribeToIssues (userId : String) (priorityFilter departmentFilter : String)
    (docs : List Issue) : Option (List Issue) :=
  if userId = "" then none
  else some (sortIssues (applyFilters docs priorityFilter departmentFilter))

/-- The optional image attached to a submission. -/
structure ImageFile where
  name : String
deriving DecidableEq, Repr

/-- Form state of the submission form. -/
structure FormData where
  roomNumber : String
  issueTitle : String
  description : String
  priority : String
  imageFile : Option ImageFile
deriving DecidableEq, Repr

/-- The document createNewIssue persists (its object literal newIssue). -/
structure NewIssue where
  displayId : String
  roomNumber : String
  issueTitle : String
  description : String
  priority : String
  status : String
  department : String
  imageUrl : Option String
  submittedBy : String
  createdAt : Nat
  updatedAt : Nat
deriving DecidableEq, Repr

/-- Persisted side effects of a submission: a blob upload to a storage
path, or a document write. -/
inductive Effect where
  | upload (path : String)
  | write (record : NewIssue)
deriving DecidableEq, Repr

/-- Storage path of an uploaded image: firs/, then the user id, a slash,
Date.now(), an underscore and the file name. -/
def storagePath (userId : String) (nowMs : Nat) (fileName : String) : String :=
  "firs/" ++ userId ++ "/" ++ toString nowMs ++ "_" ++ fileName

/-- The newIssue object literal built by createNewIssue. -/
def newIssueRecord (userId : String) (fd : FormData) (displayId : String)
    (tsNow : Nat) (imageUrl : Option String) : NewIssue :=
  { displayId := displayId
    roomNumber := fd.roomNumber
    issueTitle := fd.issueTitle
    description := fd.description
    priority := fd.priority
    status := "Submitted"
    department := "Unassigned"
    imageUrl := imageUrl
    submittedBy := userId
    createdAt := tsNow
    updatedAt := tsNow }

/-- createNewIssue: guard on initialization, optional upload (computing the
storage path from Date.now() and the file name, with urlOf modelling
getDownloadURL), then the document write.  The returned list is the
sequence of persisted effects in program order. -/
def createNewIssue (userId : String) (fd : FormData) (displayId : String)
    (nowMs tsNow : Nat) (urlOf : String → String) : Except String (List Effect) :=
  if userId = "" then Except.error "Database or storage not initialized."
  else
    match fd.imageFile with
    | none => Except.ok [Effect.write (newIssueRecord userId fd displayId tsNow none)]
    | some f =>
        let path := storagePath userId nowMs f.name
        Except.ok [Effect.upload path,
          Effect.write (newIssueRecord userId fd displayId tsNow (some (urlOf path)))]

/-- Values stored in a Firestore document field. -/
inductive JsVal where
  | str (s : String)
  | num (n : Int)
  | ts (seconds : Nat)
  | nul
deriving DecidableEq, Repr

/-- updateIssueField: updateDoc with an object holding the computed key
field set to value together with updatedAt set to Timestamp.now().  The
document is a map from field names to values; the update object sets the
computed key and updatedAt, the later literal key winning when field is
itself "updatedAt". -/
def updateIssueField (docData : String → JsVal) (field : String) (value : JsVal)
    (tsNow : Nat) : String → JsVal :=
  fun k =>
    if k = "updatedAt" then JsVal.ts tsNow
    else if k = field then value
    else docData k

/-- The field names the management table passes to updateIssueField (the
three inline select editors). -/
def MUTABLE_FIELDS : List String := ["priority", "status", "department"]

/-- Outcome of handleSubmit: blocked by the auth guard, blocked by the
required-field validation, or an attempted createNewIssue call. -/
inductive SubmitAction where
  | blockedAuth
  | blockedValidation
  | attempted (result : Except String (List Effect))

/-- handleSubmit: auth guard, then required-field validation
(!formData.roomNumber || !formData.issueTitle || !formData.description),
then the createNewIssue call. -/
def handleSubmit (userId : Option String) (fd : FormData) (nextId : String)
    (nowMs tsNow : Nat) (urlOf : String → String) : SubmitAction :=
  match userId with
  | none => SubmitAction.blockedAuth
  | some uid =>
      if fd.roomNumber = "" ∨ fd.issueTitle = "" ∨ fd.description = "" then
        SubmitAction.blockedValidation
      else SubmitAction.attempted (createNewIssue uid fd nextId nowMs tsNow urlOf)

/-- Effects actually persisted by a submission outcome.  Blocked branches
perform no upload and no write; a createNewIssue rejected by its own guard
performs none either. -/
def persistedEffects : SubmitAction → List Effect
  | SubmitAction.blockedAuth => []
  | SubmitAction.blockedValidation => []
  | SubmitAction.attempted (Except.error _) => []
  | SubmitAction.attempted (Except.ok es) => es

/-- ASCII lowercasing, as toLowerCase acts on these ASCII fields. -/
def toLowerStr (s : String) : String := String.mk (s.data.map Char.toLower)

/-- Model of JavaScript s.includes(pat): pat occurs contiguously in s. -/
def includesStr (s pat : String) : Bool :=
  (List.range (s.data.length + 1)).any
    (fun i => ((s.data.drop i).take pat.data.length) == pat.data)

/-- One disjunct of the search predicate:
field?.toLowerCase().includes(term.toLowerCase()), where a missing field
short-circuits to undefined, hence falsy. -/
def optIncludes (field : Option String) (term : String) : Bool :=
  match field with
  | none => false
  | some s => includesStr (toLowerStr s) (toLowerStr term)

/-- The filter body of filteredFirs: the search term matches the room
number, the title, the description or the display id. -/
def matchesSearch (term : String) (fir : Issue) : Bool :=
  optIncludes fir.roomNumber term || optIncludes fir.issueTitle term ||
  optIncludes fir.description term || optIncludes fir.displayId term

/-- filteredFirs: the client-side search filter over the subscribed list. -/
def filteredFirs (firs : List Issue) (searchTerm : String) : List Issue :=
  firs.filter (fun fir => matchesSearch searchTerm fir)

/-- Spec-side notion for the search property: term is a case-insensitive
substring of s. -/
def substrCI (term s : String) : Prop :=
  ∃ i, ((toLowerStr s).data.drop i).take (toLowerStr term).data.length
        = (toLowerStr term).data

/-- Spec-side search predicate: the term is a case-insensitive substring of
at least one of displayId, roomNumber, issueTitle, description. -/
def searchSpecMatch (term : String) (fir : Issue) : Prop :=
  (∃ s, fir.displayId = some s ∧ substrCI term s) ∨
  (∃ s, fir.roomNumber = some s ∧ substrCI term s) ∨
  (∃ s, fir.issueTitle = some s ∧ substrCI term s) ∨
  (∃ s, fir.description = some s ∧ substrCI term s)

/-- Legacy unused module firestore-api.js: its createNewIssue builds this
object literal.  The App never imports that module; it is kept here to
record that its defaults differ from the live integrated API (status
Submit, department Select Department, imageUrl an empty string).  The
serverTimestamp and locale-time fields are environment supplied and
carry no client-visible structure, so they are omitted. -/
structure LegacyNewIssueData where
  displayId : String
  roomNumber : String
  issueTitle : String
  description : String
  imageUrl : String
  status : String
  priority : String
  department : String
deriving DecidableEq, Repr

/-- The object literal newIssueData of the legacy createNewIssue. -/
def legacyNewIssueData (fd : FormData) (customId : String) (imageUrl : String) :
    LegacyNewIssueData :=
  { displayId := customId
    roomNumber := fd.roomNumber
    issueTitle := fd.issueTitle
    description := fd.description
    imageUrl := imageUrl
    status := "Submit"
    priority := "Medium"
    department := "Select Department" }

/-- Test fixture: an issue with display id FIR-0001 in Room 301. -/
def exFIR1 : Issue :=
  { id := "a"
    displayId := some "FIR-0001"
    roomNumber := some "Room 301"
    issueTitle := some "AC noise"
    description := some "loud rattle"
    priority := "Low"
    status := "Submitted"
    department := "Unassigned"
    imageUrl := none
    createdAt := some 10 }

/-- Test fixture: an issue with display id FIR-0003. -/
def exFIR3 : Issue :=
  { exFIR1 with id := "b", displayId := some "FIR-0003", createdAt := some 20 }

/-- Test fixture: an issue whose display id suffix does not parse. -/
def exBadId : Issue :=
  { exFIR1 with id := "c", displayId := some "FIR-abc", createdAt := some 30 }

/-- Test fixture: a Low priority issue. -/
def exLow : Issue :=
  { exFIR1 with id := "p1", displayId := some "FIR-0001", priority := "Low" }

/-- Test fixture: a High priority issue. -/
def exHigh : Issue :=
  { exFIR1 with id := "p2", displayId := some "FIR-0002", priority := "High" }

/-- Test fixture: a Critical priority issue. -/
def exCritical : Issue :=
  { exFIR1 with id := "p3", displayId := some "FIR-0003", priority := "Critical" }

/-- Test fixture: a Medium priority issue. -/
def exMedium : Issue :=
  { exFIR1 with id := "p4", displayId := some "FIR-0004", priority := "Medium" }

/-- Test fixture: a complete submission form without an image. -/
def exForm : FormData :=
  { roomNumber := "Room 301"
    issueTitle := "AC noise"
    description := "loud rattle"
    priority := "Medium"
    imageFile := none }

/-- Test fixture: a complete submission form with an image attached. -/
def exFormImg : FormData :=
  { exForm with imageFile := some { name := "leak.png" } }

/-- Test fixture: a form missing its room number. -/
def exFormMissing : FormData :=
  { exForm with roomNumber := "" }

/-- Test fixture: a download-URL assignment of the storage backend. -/
def exUrl : String → String := fun p => "https://storage.example/" ++ p

/-- Test fixture: a document mapping every field to null. -/
def exDoc : String → JsVal := fun _ => JsVal.nul

end HamsunFir

namespace HamsunFir

/-- The legacy firestore-api module persists different defaults than the
live integrated API. -/
theorem legacy_defaults_differ :
    (legacyNewIssueData exForm "FIR-0001" "").status = "Submit"
    ∧ (legacyNewIssueData exForm "FIR-0001" "").department = "Select Department" :=
  ⟨rfl, rfl⟩

/-- C1: a submission with all required fields and no image persists exactly
one document write whose record has imageUrl none, status Submitted and
department Unassigned. -/
theorem createNewIssue_no_image_defaults
    (userId : String) (fd : FormData) (displayId : String) (nowMs tsNow : Nat)
    (urlOf : String → String)
    (hu : userId ≠ "") (hroom : fd.roomNumber ≠ "") (htitle : fd.issueTitle ≠ "")
    (hdesc : fd.description ≠ "") (himg : fd.imageFile = none) :
    createNewIssue userId fd displayId nowMs tsNow urlOf
      = Except.ok [Effect.write (newIssueRecord userId fd displayId tsNow none)]
    ∧ (newIssueRecord userId fd displayId tsNow none).imageUrl = none
    ∧ (newIssueRecord userId fd displayId tsNow none).status = "Submitted"
    ∧ (newIssueRecord userId fd displayId tsNow none).department = "Unassigned" := by
  refine ⟨?_, rfl, rfl, rfl⟩
  unfold createNewIssue
  rw [if_neg hu, himg]

/-- Witness for C1 at a concrete submission. -/
theorem createNewIssue_no_image_defaults_witness :
    createNewIssue "u1" exForm "FIR-0004" 100 5 exUrl
      = Except.ok [Effect.write (newIssueRecord "u1" exForm "FIR-0004" 5 none)]
    ∧ (newIssueRecord "u1" exForm "FIR-0004" 5 none).imageUrl = none
    ∧ (newIssueRecord "u1" exForm "FIR-0004" 5 none).status = "Submitted"
    ∧ (newIssueRecord "u1" exForm "FIR-0004" 5 none).department = "Unassigned" :=
  createNewIssue_no_image_defaults "u1" exForm "FIR-0004" 100 5 exUrl
    (by decide) (by decide) (by decide) (by decide) rfl

/-- C8: a submission with an image persists the upload effect at the path
firs/, user id, slash, timestamp, underscore, file name, strictly before
the document write, and the written record stores the URL obtained for
that path. -/
theorem createNewIssue_image_upload_path
    (userId : String) (fd : FormData) (displayId : String) (nowMs tsNow : Nat)
    (urlOf : String → String) (f : ImageFile)
    (hu : userId ≠ "") (himg : fd.imageFile = some f) :
    createNewIssue userId fd displayId nowMs tsNow urlOf
      = Except.ok [Effect.upload (storagePath userId nowMs f.name),
          Effect.write (newIssueRecord userId fd displayId tsNow
            (some (urlOf (storagePath userId nowMs f.name))))]
    ∧ storagePath userId nowMs f.name
        = "firs/" ++ userId ++ "/" ++ toString nowMs ++ "_" ++ f.name := by
  refine ⟨?_, rfl⟩
  unfold createNewIssue
  rw [if_neg hu, himg]

/-- Witness for C8 at a concrete submission with an image. -/
theorem createNewIssue_image_upload_path_witness :
    createNewIssue "u1" exFormImg "FIR-0004" 100 5 exUrl
      = Except.ok [Effect.upload (storagePath "u1" 100 "leak.png"),
          Effect.write (newIssueRecord "u1" exFormImg "FIR-0004" 5
            (some (exUrl (storagePath "u1" 100 "leak.png"))))]
    ∧ storagePath "u1" 100 "leak.png"
        = "firs/" ++ "u1" ++ "/" ++ toString 100 ++ "_" ++ "leak.png" :=
  createNewIssue_image_upload_path "u1" exFormImg "FIR-0004" 100 5 exUrl
    { name := "leak.png" } (by decide) rfl

/-- C3: updating a permitted mutable field rewrites exactly that field and
updatedAt; every other field of the document is unchanged. -/
theorem updateIssueField_frame
    (docData : String → JsVal) (field : String) (value : JsVal) (tsNow : Nat)
    (hf : field ∈ MUTABLE_FIELDS) :
    (∀ k, k ≠ field → k ≠ "updatedAt" →
        updateIssueField docData field value tsNow k = docData k)
    ∧ updateIssueField docData field value tsNow field = value
    ∧ updateIssueField docData field value tsNow "updatedAt" = JsVal.ts tsNow := by
  have hfu : field ≠ "updatedAt" := by
    simp only [MUTABLE_FIELDS, List.mem_cons, List.not_mem_nil, or_false] at hf
    rcases hf with rfl | rfl | rfl <;> decide
  refine ⟨?_, ?_, ?_⟩
  · intro k hk hku
    unfold updateIssueField
    rw [if_neg hku, if_neg hk]
  · unfold updateIssueField
    rw [if_neg hfu, if_pos rfl]
  · unfold updateIssueField
    rw [if_pos rfl]

/-- Witness for C3: a concrete status change leaves the description field
untouched, sets status, and stamps updatedAt. -/
theorem updateIssueField_frame_witness :
    updateIssueField exDoc "status" (JsVal.str "In Progress") 7 "description"
      = exDoc "description"
    ∧ updateIssueField exDoc "status" (JsVal.str "In Progress") 7 "status"
      = JsVal.str "In Progress"
    ∧ updateIssueField exDoc "status" (JsVal.str "In Progress") 7 "updatedAt"
      = JsVal.ts 7 :=
  ⟨(updateIssueField_frame exDoc "status" (JsVal.str "In Progress") 7
      (by decide)).1 "description" (by decide) (by decide),
   (updateIssueField_frame exDoc "status" (JsVal.str "In Progress") 7
      (by decide)).2.1,
   (updateIssueField_frame exDoc "status" (JsVal.str "In Progress") 7
      (by decide)).2.2⟩

/-- C6: a submission with a missing required field is blocked by the
validation guard and persists no effect at all (no upload, no write). -/
theorem handleSubmit_missing_fields_no_effect
    (userId : Option String) (fd : FormData) (nextId : String) (nowMs tsNow : Nat)
    (urlOf : String → String)
    (hmiss : fd.roomNumber = "" ∨ fd.issueTitle = "" ∨ fd.description = "") :
    persistedEffects (handleSubmit userId fd nextId nowMs tsNow urlOf) = []
    ∧ ∀ uid, userId = some uid →
        handleSubmit userId fd nextId nowMs tsNow urlOf
          = SubmitAction.blockedValidation := by
  cases userId with
  | none => exact ⟨rfl, fun uid h => by cases h⟩
  | some uid =>
    have hblock : handleSubmit (some uid) fd nextId nowMs tsNow urlOf
        = SubmitAction.blockedValidation := by
      simp only [handleSubmit]
      rw [if_pos hmiss]
    exact ⟨by rw [hblock]; rfl, fun u _ => hblock⟩

/-- Witness for C6 at a concrete form missing its room number. -/
theorem handleSubmit_missing_fields_no_effect_witness :
    persistedEffects (handleSubmit (some "u1") exFormMissing "FIR-0001" 100 5 exUrl) = []
    ∧ handleSubmit (some "u1") exFormMissing "FIR-0001" 100 5 exUrl
        = SubmitAction.blockedValidation :=
  ⟨(handleSubmit_missing_fields_no_effect (some "u1") exFormMissing "FIR-0001" 100 5 exUrl
      (Or.inl rfl)).1,
   (handleSubmit_missing_fields_no_effect (some "u1") exFormMissing "FIR-0001" 100 5 exUrl
      (Or.inl rfl)).2 "u1" rfl⟩

/-- C9: on an empty issue list the allocator reduce yields 0 and the
proposed id is FIR-0001, which equals the initial state value. -/
theorem nextDisplayId_empty_initial :
    nextDisplayId [] = "FIR-0001"
    ∧ highestId [] = 0
    ∧ nextDisplayId [] = initialNextDisplayId := by
  refine ⟨by decide, rfl, by decide⟩

end HamsunFir

namespace HamsunFir

/-- A reduce step on an unparseable suffix keeps the accumulator. -/
theorem reduceStep_none (acc : Int) (fir : Issue)
    (h : suffixNum fir.displayId = none) : reduceStep acc fir = acc := by
  unfold reduceStep
  rw [h]

/-- A reduce step on a parsed suffix takes the larger of the two. -/
theorem reduceStep_some (acc : Int) (fir : Issue) (num : Int)
    (h : suffixNum fir.displayId = some num) :
    reduceStep acc fir = if acc < num then num else acc := by
  unfold reduceStep
  rw [h]

/-- One reduce step never decreases the accumulator. -/
theorem reduceStep_le (acc : Int) (fir : Issue) : acc ≤ reduceStep acc fir := by
  unfold reduceStep
  cases suffixNum fir.displayId with
  | none => exact le_refl acc
  | some num =>
    dsimp only
    split
    · omega
    · exact le_refl acc

/-- The reduce never decreases its starting accumulator. -/
theorem le_foldl_reduceStep (data : List Issue) (acc : Int) :
    acc ≤ data.foldl reduceStep acc := by
  induction data generalizing acc with
  | nil => exact le_refl acc
  | cons f t ih => exact le_trans (reduceStep_le acc f) (ih (reduceStep acc f))

/-- Every successfully parsed suffix in the list is bounded by the reduce
result. -/
theorem parsed_le_foldl_reduceStep (data : List Issue) (acc : Int) (fir : Issue)
    (hm : fir ∈ data) (n : Int) (hp : suffixNum fir.displayId = some n) :
    n ≤ data.foldl reduceStep acc := by
  induction data generalizing acc with
  | nil => cases hm
  | cons f t ih =>
    rcases List.mem_cons.mp hm with h | h
    · subst h
      have hstep : n ≤ reduceStep acc fir := by
        unfold reduceStep
        rw [hp]
        dsimp only
        split <;> omega
      exact le_trans hstep (le_foldl_reduceStep t (reduceStep acc fir))
    · exact ih (reduceStep acc f) h

/-- The reduce result is either the starting accumulator or a parsed suffix
of some list element. -/
theorem foldl_reduceStep_attained (data : List Issue) (acc : Int) :
    data.foldl reduceStep acc = acc
    ∨ ∃ fir, fir ∈ data ∧ suffixNum fir.displayId = some (data.foldl reduceStep acc) := by
  induction data generalizing acc with
  | nil => exact Or.inl rfl
  | cons f t ih =>
    rw [List.foldl_cons]
    rcases ih (reduceStep acc f) with h1 | ⟨fir, hm, hp⟩
    · rw [h1]
      cases hs : suffixNum f.displayId with
      | none =>
        rw [reduceStep_none acc f hs]
        exact Or.inl rfl
      | some num =>
        rw [reduceStep_some acc f num hs]
        split
        · exact Or.inr ⟨f, List.mem_cons_self f t, hs⟩
        · exact Or.inl rfl
    · exact Or.inr ⟨fir, List.mem_cons_of_mem f hm, hp⟩

/-- C2: the allocator result bounds every parsed suffix from above, is
itself 0 or one of the parsed suffixes (so it is exactly their maximum),
the proposal is that maximum plus one zero-padded to 4 digits, and on
the ids FIR-0001 and FIR-0003 it proposes FIR-0004. -/
theorem nextDisplayId_max_plus_one :
    (∀ (data : List Issue) (fir : Issue), fir ∈ data →
        ∀ n : Int, suffixNum fir.displayId = some n → n ≤ highestId data)
    ∧ (∀ data : List Issue, highestId data = 0
        ∨ ∃ fir, fir ∈ data ∧ suffixNum fir.displayId = some (highestId data))
    ∧ (∀ data : List Issue,
        nextDisplayId data = "FIR-" ++ padStart (toString (highestId data + 1)) 4 '0')
    ∧ nextDisplayId [exFIR1, exFIR3] = "FIR-0004" := by
  refine ⟨?_, ?_, fun _ => rfl, by decide⟩
  · intro data fir hm n hp
    exact parsed_le_foldl_reduceStep data 0 fir hm n hp
  · intro data
    exact foldl_reduceStep_attained data 0

/-- Witness for C2: the parsed suffix 3 of FIR-0003 is bounded by the
allocator maximum over the concrete list. -/
theorem nextDisplayId_max_plus_one_witness :
    (3 : Int) ≤ highestId [exFIR1, exFIR3] :=
  nextDisplayId_max_plus_one.1 [exFIR1, exFIR3] exFIR3 (by decide) 3 (by decide)

/-- C10: the allocator is total: a missing displayId parses as suffix 0,
an issue whose suffix does not parse never changes the computed maximum
or the proposed id, and the proposal always is FIR- followed by some
string. -/
theorem nextDisplayId_total :
    suffixNum none = some 0
    ∧ (∀ (pre post : List Issue) (fir : Issue), suffixNum fir.displayId = none →
        highestId (pre ++ fir :: post) = highestId (pre ++ post)
        ∧ nextDisplayId (pre ++ fir :: post) = nextDisplayId (pre ++ post))
    ∧ (∀ data : List Issue, ∃ s : String, nextDisplayId data = "FIR-" ++ s) := by
  refine ⟨by decide, ?_, fun data => ⟨padStart (toString (highestId data + 1)) 4 '0', rfl⟩⟩
  intro pre post fir hnone
  have hstep : ∀ acc : Int, reduceStep acc fir = acc := by
    intro acc
    unfold reduceStep
    rw [hnone]
  have hh : highestId (pre ++ fir :: post) = highestId (pre ++ post) := by
    unfold highestId
    rw [List.foldl_append, List.foldl_append, List.foldl_cons, hstep]
  exact ⟨hh, by unfold nextDisplayId; rw [hh]⟩

/-- Witness for C10: an unparseable id FIR-abc leaves the computed maximum
and the proposal unchanged. -/
theorem nextDisplayId_total_witness :
    highestId [exFIR1, exBadId] = highestId [exFIR1]
    ∧ nextDisplayId [exFIR1, exBadId] = nextDisplayId [exFIR1] :=
  nextDisplayId_total.2.1 [exFIR1] [] exBadId (by decide)

end HamsunFir

namespace HamsunFir

/-- C4: with the guard passed, the delivered list is exactly the in-memory
sort of the filtered server snapshot: a permutation of it, ordered
newest first by the createdAt seconds (descending). -/
theorem subscribeToIssues_sorted_client_side
    (userId priorityFilter departmentFilter : String) (docs : List Issue)
    (h : userId ≠ "") :
    subscribeToIssues userId priorityFilter departmentFilter docs
      = some (sortIssues (applyFilters docs priorityFilter departmentFilter))
    ∧ List.Perm (sortIssues (applyFilters docs priorityFilter departmentFilter))
        (applyFilters docs priorityFilter departmentFilter)
    ∧ List.Pairwise (fun a b => createdAtSeconds b ≤ createdAtSeconds a)
        (sortIssues (applyFilters docs priorityFilter departmentFilter)) := by
  refine ⟨?_, ?_, ?_⟩
  · unfold subscribeToIssues
    rw [if_neg h]
  · exact List.mergeSort_perm (applyFilters docs priorityFilter departmentFilter) newestFirst
  · have htrans : ∀ a b c : Issue,
        newestFirst a b = true → newestFirst b c = true → newestFirst a c = true := by
      intro a b c hab hbc
      simp only [newestFirst, decide_eq_true_eq] at hab hbc ⊢
      omega
    have htotal : ∀ a b : Issue, (newestFirst a b || newestFirst b a) = true := by
      intro a b
      simp only [newestFirst, Bool.or_eq_true, decide_eq_true_eq]
      omega
    have hs := List.sorted_mergeSort htrans htotal
      (applyFilters docs priorityFilter departmentFilter)
    exact hs.imp (fun hab => by simpa only [newestFirst, decide_eq_true_eq] using hab)

/-- Witness for C4 on a concrete two-issue snapshot. -/
theorem subscribeToIssues_sorted_client_side_witness :
    subscribeToIssues "u1" "All" "All" [exFIR1, exFIR3]
      = some (sortIssues (applyFilters [exFIR1, exFIR3] "All" "All"))
    ∧ List.Perm (sortIssues (applyFilters [exFIR1, exFIR3] "All" "All"))
        (applyFilters [exFIR1, exFIR3] "All" "All")
    ∧ List.Pairwise (fun a b => createdAtSeconds b ≤ createdAtSeconds a)
        (sortIssues (applyFilters [exFIR1, exFIR3] "All" "All")) :=
  subscribeToIssues_sorted_client_side "u1" "All" "All" [exFIR1, exFIR3] (by decide)

/-- C7: with a priority filter other than All (and no department filter),
the delivered list holds exactly the issues of that priority; on the
concrete snapshot with priorities Low, High, Critical, Medium the High
filter delivers exactly the one High issue. -/
theorem subscribeToIssues_priority_filter_exact :
    (∀ (userId p : String) (docs l : List Issue),
        userId ≠ "" → p ≠ "All" →
        subscribeToIssues userId p "All" docs = some l →
        ∀ i, i ∈ l ↔ i ∈ docs ∧ i.priority = p)
    ∧ subscribeToIssues "u1" "High" "All" [exLow, exHigh, exCritical, exMedium]
        = some [exHigh] := by
  constructor
  · intro userId p docs l hu hp hsub i
    unfold subscribeToIssues at hsub
    rw [if_neg hu] at hsub
    cases hsub
    simp only [sortIssues, List.mem_mergeSort, applyFilters, List.mem_filter,
      matchesFilters]
    simp [hp, beq_iff_eq]
  · have hf : applyFilters [exLow, exHigh, exCritical, exMedium] "High" "All"
        = [exHigh] := by decide
    unfold subscribeToIssues
    rw [if_neg (by decide), hf]
    simp [sortIssues, List.mergeSort_singleton]

/-- Witness for C7: membership in the delivered High list coincides with
being a High issue of the snapshot. -/
theorem subscribeToIssues_priority_filter_exact_witness :
    exHigh ∈ [exHigh]
      ↔ exHigh ∈ [exLow, exHigh, exCritical, exMedium] ∧ exHigh.priority = "High" :=
  subscribeToIssues_priority_filter_exact.1 "u1" "High"
    [exLow, exHigh, exCritical, exMedium] [exHigh] (by decide) (by decide)
    subscribeToIssues_priority_filter_exact.2 exHigh

/-- Characterization of the includes model: the pattern occurs at some
offset. -/
theorem includesStr_iff (s pat : String) :
    includesStr s pat = true
      ↔ ∃ i, (s.data.drop i).take pat.data.length = pat.data := by
  unfold includesStr
  rw [List.any_eq_true]
  constructor
  · rintro ⟨i, _, heq⟩
    exact ⟨i, by simpa using heq⟩
  · rintro ⟨i, hi⟩
    by_cases hle : i ≤ s.data.length
    · refine ⟨i, List.mem_range.mpr (by omega), by simpa using hi⟩
    · have hdrop : s.data.drop i = [] := List.drop_eq_nil_of_le (by omega)
      rw [hdrop] at hi
      have hpat : pat.data = [] := by simpa using hi.symm
      refine ⟨0, List.mem_range.mpr (by omega), ?_⟩
      simp [hpat]

/-- One search disjunct holds exactly when the field is present and the
term is a case-insensitive substring of it. -/
theorem optIncludes_iff (field : Option String) (term : String) :
    optIncludes field term = true ↔ ∃ s, field = some s ∧ substrCI term s := by
  cases field with
  | none => simp [optIncludes]
  | some s =>
    simp only [optIncludes]
    rw [includesStr_iff]
    constructor
    · intro h
      exact ⟨s, rfl, h⟩
    · rintro ⟨t, ht, h⟩
      cases ht
      exact h

/-- C5: the search filter returns exactly the issues for which the term is
a case-insensitive substring of displayId, roomNumber, issueTitle or
description, and searching 301 against Room 301 returns that issue. -/
theorem filteredFirs_search_union :
    (∀ (firs : List Issue) (term : String) (fir : Issue),
        fir ∈ filteredFirs firs term ↔ fir ∈ firs ∧ searchSpecMatch term fir)
    ∧ filteredFirs [exFIR1] "301" = [exFIR1] := by
  constructor
  · intro firs term fir
    simp only [filteredFirs, List.mem_filter, matchesSearch, searchSpecMatch,
      Bool.or_eq_true, optIncludes_iff]
    refine and_congr_right (fun _ => ⟨?_, ?_⟩)
    · rintro (((h | h) | h) | h)
      · exact Or.inr (Or.inl h)
      · exact Or.inr (Or.inr (Or.inl h))
      · exact Or.inr (Or.inr (Or.inr h))
      · exact Or.inl h
    · rintro (h | h | h | h)
      · exact Or.inr h
      · exact Or.inl (Or.inl (Or.inl h))
      · exact Or.inl (Or.inl (Or.inr h))
      · exact Or.inl (Or.inr h)
  · decide

end HamsunFir
